import Mathlib

/-
Verification of the GPT-SoVITS Go SDK client (api.go) against its
natural-language specification.

Shallow-embedding conventions, matching the source file api.go:

* Go byte slices ([]byte) are modelled as Lean `String` values; a nil Go
  slice is the empty string.  No claim depends on non-UTF-8 byte content
  (the only concrete bytes used, 0x52 0x49 0x46 0x46, are the ASCII text
  "RIFF").
* Go `float64` struct fields are modelled by `GoFloat`: a finite float64
  is represented by its exact rational value (finite float64 values
  round-trip exactly through Go's JSON encoding), while NaN and the two
  infinities are kept as separate constructors because `json.Marshal`
  fails on them.
* JSON documents are modelled as an abstract syntax tree (`Json`) rather
  than byte strings; `json.Marshal` of a struct produces an object whose
  keys appear in struct-field order, which the model reproduces.
* The external world (the HTTP server, `http.NewRequestWithContext`
  failures and `io.ReadAll` failures) is an oracle `HttpEnv`.  The
  `context.Context` argument of every Go method is absorbed into the
  oracle: a cancelled context surfaces as a transport error from
  `HTTPClient.Do`, exactly as in Go.
* Go `error` results are `Option String` (`none` = nil), carrying the
  formatted message produced by `fmt.Errorf`.
-/

/-- JSON document tree, the target of the modelled `json.Marshal`. -/
inductive Json where
  | null : Json
  | bool (b : Bool) : Json
  | num (q : Rat) : Json
  | str (s : String) : Json
  | arr (elems : List Json) : Json
  | obj (fields : List (String × Json)) : Json

/-- Top-level keys of a JSON object, in order; `[]` for non-objects. -/
def Json.topKeys : Json → List String
  | .obj fields => fields.map Prod.fst
  | _ => []

/-- A Go `float64` value as far as JSON encoding can observe it: finite
values are kept as their exact rational value; NaN and the infinities are
the values `json.Marshal` rejects. -/
inductive GoFloat where
  | finite (q : Rat) : GoFloat
  | nan : GoFloat
  | inf : GoFloat
  | negInf : GoFloat
deriving DecidableEq, Repr

/-- Whether the float is finite (hence JSON-encodable). -/
def GoFloat.isFinite : GoFloat → Bool
  | .finite _ => true
  | _ => false

/-- `json.Marshal` of one float64 value: a JSON number for finite values,
an `UnsupportedValueError` otherwise. -/
def GoFloat.jsonNum : GoFloat → Except String Json
  | .finite q => .ok (Json.num q)
  | .nan => .error "json: unsupported value: NaN"
  | .inf => .error "json: unsupported value: +Inf"
  | .negInf => .error "json: unsupported value: -Inf"

/-- TTSRequest, api.go lines 22-45.  Field defaults are the Go zero
values, as produced by a Go composite literal that omits the field. -/
structure TTSRequest where
  Text : String := ""
  TextLang : String := ""
  RefAudioPath : String := ""
  AuxRefAudioPaths : List String := []
  PromptText : String := ""
  PromptLang : String := ""
  TopK : Int := 0
  TopP : GoFloat := .finite 0
  Temperature : GoFloat := .finite 0
  TextSplitMethod : String := ""
  BatchSize : Int := 0
  BatchThreshold : GoFloat := .finite 0
  SplitBucket : Bool := false
  SpeedFactor : GoFloat := .finite 0
  FragmentInterval : GoFloat := .finite 0
  Seed : Int := 0
  MediaType : String := ""
  StreamingMode : Bool := false
  ParallelInfer : Bool := false
  RepetitionPenalty : GoFloat := .finite 0
  SampleSteps : Int := 0
  SuperSampling : Bool := false
deriving DecidableEq, Repr

/-- TTSResponse, api.go lines 48-52.  `AudioData` is the Go `[]byte`
modelled as a string (nil slice = empty string); `Error` is the Go
`error` field. -/
structure TTSResponse where
  StatusCode : Nat := 0
  AudioData : String := ""
  Error : Option String := none
deriving DecidableEq, Repr

/-- ControlRequest, api.go lines 55-57. -/
structure ControlRequest where
  Command : String
deriving DecidableEq, Repr

/-- SetWeightsRequest, api.go lines 60-62. -/
structure SetWeightsRequest where
  WeightsPath : String
deriving DecidableEq, Repr

/-- All six float64 fields of a TTSRequest are finite; exactly the
condition under which `json.Marshal` succeeds on the request. -/
def TTSRequest.floatsFinite (r : TTSRequest) : Bool :=
  r.TopP.isFinite && r.Temperature.isFinite && r.BatchThreshold.isFinite &&
    r.SpeedFactor.isFinite && r.FragmentInterval.isFinite &&
    r.RepetitionPenalty.isFinite

/-- `json.Marshal` on a TTSRequest: an object with the snake_case keys of
the struct tags, in struct-field order; fails at the first non-finite
float64 field (in field order), as Go's encoder does. -/
def marshalTTSRequest (r : TTSRequest) : Except String Json := do
  let topP ← r.TopP.jsonNum
  let temperature ← r.Temperature.jsonNum
  let batchThreshold ← r.BatchThreshold.jsonNum
  let speedFactor ← r.SpeedFactor.jsonNum
  let fragmentInterval ← r.FragmentInterval.jsonNum
  let repetitionPenalty ← r.RepetitionPenalty.jsonNum
  .ok (Json.obj [
    ("text", Json.str r.Text),
    ("text_lang", Json.str r.TextLang),
    ("ref_audio_path", Json.str r.RefAudioPath),
    ("aux_ref_audio_paths", Json.arr (r.AuxRefAudioPaths.map Json.str)),
    ("prompt_text", Json.str r.PromptText),
    ("prompt_lang", Json.str r.PromptLang),
    ("top_k", Json.num (r.TopK : Rat)),
    ("top_p", topP),
    ("temperature", temperature),
    ("text_split_method", Json.str r.TextSplitMethod),
    ("batch_size", Json.num (r.BatchSize : Rat)),
    ("batch_threshold", batchThreshold),
    ("split_bucket", Json.bool r.SplitBucket),
    ("speed_factor", speedFactor),
    ("fragment_interval", fragmentInterval),
    ("seed", Json.num (r.Seed : Rat)),
    ("media_type", Json.str r.MediaType),
    ("streaming_mode", Json.bool r.StreamingMode),
    ("parallel_infer", Json.bool r.ParallelInfer),
    ("repetition_penalty", repetitionPenalty),
    ("sample_steps", Json.num (r.SampleSteps : Rat)),
    ("super_sampling", Json.bool r.SuperSampling)])

/-- Decode a JSON array of strings (`json.Unmarshal` into `[]string`). -/
def decodeStrs : List Json → Except String (List String)
  | [] => .ok []
  | Json.str s :: rest => (decodeStrs rest).map (fun l => s :: l)
  | _ :: _ => .error "json: cannot unmarshal value into Go value of type string"

/-- Apply one JSON object entry to a TTSRequest being decoded, as
`json.Unmarshal` does: match the snake_case tag, decode the value at the
field's type, ignore unknown keys, leave the field untouched on `null`. -/
def setField (r : TTSRequest) (k : String) (v : Json) : Except String TTSRequest :=
  if k = "text" then
    match v with
    | Json.str s => .ok { r with Text := s }
    | _ => .error "json: cannot unmarshal value into field text"
  else if k = "text_lang" then
    match v with
    | Json.str s => .ok { r with TextLang := s }
    | _ => .error "json: cannot unmarshal value into field text_lang"
  else if k = "ref_audio_path" then
    match v with
    | Json.str s => .ok { r with RefAudioPath := s }
    | _ => .error "json: cannot unmarshal value into field ref_audio_path"
  else if k = "aux_ref_audio_paths" then
    match v with
    | Json.null => .ok r
    | Json.arr xs => (decodeStrs xs).map (fun l => { r with AuxRefAudioPaths := l })
    | _ => .error "json: cannot unmarshal value into field aux_ref_audio_paths"
  else if k = "prompt_text" then
    match v with
    | Json.str s => .ok { r with PromptText := s }
    | _ => .error "json: cannot unmarshal value into field prompt_text"
  else if k = "prompt_lang" then
    match v with
    | Json.str s => .ok { r with PromptLang := s }
    | _ => .error "json: cannot unmarshal value into field prompt_lang"
  else if k = "top_k" then
    match v with
    | Json.num q => if q.den = 1 then .ok { r with TopK := q.num }
        else .error "json: cannot unmarshal number into field top_k of type int"
    | _ => .error "json: cannot unmarshal value into field top_k"
  else if k = "top_p" then
    match v with
    | Json.num q => .ok { r with TopP := GoFloat.finite q }
    | _ => .error "json: cannot unmarshal value into field top_p"
  else if k = "temperature" then
    match v with
    | Json.num q => .ok { r with Temperature := GoFloat.finite q }
    | _ => .error "json: cannot unmarshal value into field temperature"
  else if k = "text_split_method" then
    match v with
    | Json.str s => .ok { r with TextSplitMethod := s }
    | _ => .error "json: cannot unmarshal value into field text_split_method"
  else if k = "batch_size" then
    match v with
    | Json.num q => if q.den = 1 then .ok { r with BatchSize := q.num }
        else .error "json: cannot unmarshal number into field batch_size of type int"
    | _ => .error "json: cannot unmarshal value into field batch_size"
  else if k = "batch_threshold" then
    match v with
    | Json.num q => .ok { r with BatchThreshold := GoFloat.finite q }
    | _ => .error "json: cannot unmarshal value into field batch_threshold"
  else if k = "split_bucket" then
    match v with
    | Json.bool b => .ok { r with SplitBucket := b }
    | _ => .error "json: cannot unmarshal value into field split_bucket"
  else if k = "speed_factor" then
    match v with
    | Json.num q => .ok { r with SpeedFactor := GoFloat.finite q }
    | _ => .error "json: cannot unmarshal value into field speed_factor"
  else if k = "fragment_interval" then
    match v with
    | Json.num q => .ok { r with FragmentInterval := GoFloat.finite q }
    | _ => .error "json: cannot unmarshal value into field fragment_interval"
  else if k = "seed" then
    match v with
    | Json.num q => if q.den = 1 then .ok { r with Seed := q.num }
        else .error "json: cannot unmarshal number into field seed of type int"
    | _ => .error "json: cannot unmarshal value into field seed"
  else if k = "media_type" then
    match v with
    | Json.str s => .ok { r with MediaType := s }
    | _ => .error "json: cannot unmarshal value into field media_type"
  else if k = "streaming_mode" then
    match v with
    | Json.bool b => .ok { r with StreamingMode := b }
    | _ => .error "json: cannot unmarshal value into field streaming_mode"
  else if k = "parallel_infer" then
    match v with
    | Json.bool b => .ok { r with ParallelInfer := b }
    | _ => .error "json: cannot unmarshal value into field parallel_infer"
  else if k = "repetition_penalty" then
    match v with
    | Json.num q => .ok { r with RepetitionPenalty := GoFloat.finite q }
    | _ => .error "json: cannot unmarshal value into field repetition_penalty"
  else if k = "sample_steps" then
    match v with
    | Json.num q => if q.den = 1 then .ok { r with SampleSteps := q.num }
        else .error "json: cannot unmarshal number into field sample_steps of type int"
    | _ => .error "json: cannot unmarshal value into field sample_steps"
  else if k = "super_sampling" then
    match v with
    | Json.bool b => .ok { r with SuperSampling := b }
    | _ => .error "json: cannot unmarshal value into field super_sampling"
  else .ok r

/-- Fold the entries of a JSON object into a TTSRequest; entries are
processed in document order, so a later duplicate key overwrites an
earlier one, as in `json.Unmarshal`. -/
def applyFields : TTSRequest → List (String × Json) → Except String TTSRequest
  | r, [] => .ok r
  | r, (k, v) :: rest =>
    match setField r k v with
    | .ok r2 => applyFields r2 rest
    | .error e => .error e

/-- `json.Unmarshal` of a JSON document into a TTSRequest, starting from
the zero value. -/
def unmarshalTTSRequest (j : Json) : Except String TTSRequest :=
  match j with
  | Json.obj fields => applyFields {} fields
  | _ => .error "json: cannot unmarshal value into Go value of type TTSRequest"

/-- `json.Marshal` of a ControlRequest; marshalling a struct holding one
string cannot fail in Go, so the model is total. -/
def marshalControlRequest (r : ControlRequest) : Json :=
  Json.obj [("command", Json.str r.Command)]

/-- `json.Marshal` of a SetWeightsRequest; total for the same reason. -/
def marshalSetWeightsRequest (r : SetWeightsRequest) : Json :=
  Json.obj [("weights_path", Json.str r.WeightsPath)]

/-- The HTTP request a client method hands to `HTTPClient.Do`: method,
full URL, optional JSON body (POST variants), and the headers set on it. -/
structure HttpRequest where
  method : String
  url : String
  body : Option Json
  headers : List (String × String)

/-- What `HTTPClient.Do` delivered: the status code, the bytes that
`io.ReadAll(resp.Body)` returned (possibly partial), and the read error
`io.ReadAll` reported, if any. -/
structure HttpResp where
  statusCode : Nat
  bodyBytes : String
  readErr : Option String
deriving Repr

/-- Oracle for the external world of one client call: whether
`http.NewRequestWithContext` fails (it can only fail on URL or method
construction, independently of the network), and what `HTTPClient.Do`
does with the request that is sent (a transport error, or a response). -/
structure HttpEnv where
  newRequestErr : Option String
  perform : HttpRequest → Except String HttpResp

/-- Client, api.go lines 16-19.  The HTTP transport and its 60-second
timeout live in the `HttpEnv` oracle, so only the base URL remains. -/
structure Client where
  BaseURL : String

/-- The POST request `TTS` builds: api.go lines 83-91. -/
def ttsRequestFor (c : Client) (jsonData : Json) : HttpRequest :=
  { method := "POST", url := c.BaseURL ++ "/tts", body := some jsonData,
    headers := [("Content-Type", "application/json")] }

/-- TTS, api.go lines 75-110. -/
def Client.TTS (c : Client) (env : HttpEnv) (req : TTSRequest) :
    TTSResponse × Option String :=
  match marshalTTSRequest req with
  | .error e => ({ Error := some ("请求序列化失败: " ++ e) }, none)
  | .ok jsonData =>
    match env.newRequestErr with
    | some e => ({ Error := some ("创建请求失败: " ++ e) }, none)
    | none =>
      match env.perform (ttsRequestFor c jsonData) with
      | .error e => ({ Error := some ("请求失败: " ++ e) }, none)
      | .ok resp =>
        match resp.readErr with
        | some e => ({ Error := some ("读取响应体失败: " ++ e) }, none)
        | none => ({ StatusCode := resp.statusCode, AudioData := resp.bodyBytes }, none)

/-- The request value TTSSimple constructs, api.go lines 115-125; fields
not listed in the Go composite literal keep their zero values. -/
def ttsSimpleRequest (text textLang refAudioPath promptLang promptText : String) :
    TTSRequest :=
  { Text := text, TextLang := textLang, RefAudioPath := refAudioPath,
    PromptLang := promptLang, PromptText := promptText,
    TextSplitMethod := "cut5", BatchSize := 1, MediaType := "wav",
    StreamingMode := false }

/-- TTSSimple, api.go lines 113-128. -/
def Client.TTSSimple (c : Client) (env : HttpEnv)
    (text textLang refAudioPath promptLang promptText : String) :
    TTSResponse × Option String :=
  c.TTS env (ttsSimpleRequest text textLang refAudioPath promptLang promptText)

/-- The POST request `Control` builds: api.go lines 133-150. -/
def controlRequestFor (c : Client) (command : String) : HttpRequest :=
  { method := "POST", url := c.BaseURL ++ "/control",
    body := some (marshalControlRequest { Command := command }),
    headers := [("Content-Type", "application/json")] }

/-- Control, api.go lines 131-166. -/
def Client.Control (c : Client) (env : HttpEnv) (command : String) :
    Option String :=
  match env.newRequestErr with
  | some e => some ("创建控制请求失败: " ++ e)
  | none =>
    match env.perform (controlRequestFor c command) with
    | .error e => some ("控制请求失败: " ++ e)
    | .ok resp =>
      if resp.statusCode ≠ 200 ∧ resp.statusCode ≠ 204 then
        some ("控制请求失败，状态码 " ++ toString resp.statusCode ++ ": " ++
          resp.bodyBytes)
      else none

/-- The POST request `SetGPTWeights` builds: api.go lines 171-188. -/
def gptWeightsRequestFor (c : Client) (weightsPath : String) : HttpRequest :=
  { method := "POST", url := c.BaseURL ++ "/set_gpt_weights",
    body := some (marshalSetWeightsRequest { WeightsPath := weightsPath }),
    headers := [("Content-Type", "application/json")] }

/-- SetGPTWeights, api.go lines 169-204. -/
def Client.SetGPTWeights (c : Client) (env : HttpEnv) (weightsPath : String) :
    Option String :=
  match env.newRequestErr with
  | some e => some ("创建权重请求失败: " ++ e)
  | none =>
    match env.perform (gptWeightsRequestFor c weightsPath) with
    | .error e => some ("设置GPT权重请求失败: " ++ e)
    | .ok resp =>
      if resp.statusCode ≠ 200 then
        some ("设置GPT权重失败，状态码 " ++ toString resp.statusCode ++ ": " ++
          resp.bodyBytes)
      else none

/-- The POST request `SetSoVITSWeights` builds: api.go lines 209-226. -/
def sovitsWeightsRequestFor (c : Client) (weightsPath : String) : HttpRequest :=
  { method := "POST", url := c.BaseURL ++ "/set_sovits_weights",
    body := some (marshalSetWeightsRequest { WeightsPath := weightsPath }),
    headers := [("Content-Type", "application/json")] }

/-- SetSoVITSWeights, api.go lines 207-242. -/
def Client.SetSoVITSWeights (c : Client) (env : HttpEnv) (weightsPath : String) :
    Option String :=
  match env.newRequestErr with
  | some e => some ("创建权重请求失败: " ++ e)
  | none =>
    match env.perform (sovitsWeightsRequestFor c weightsPath) with
    | .error e => some ("设置SoVITS权重请求失败: " ++ e)
    | .ok resp =>
      if resp.statusCode ≠ 200 then
        some ("设置SoVITS权重失败，状态码 " ++ toString resp.statusCode ++ ": " ++
          resp.bodyBytes)
      else none

/-- One step of the query-building loop body of GetTTSWithURLParams,
api.go line 252: `query += fmt.Sprintf("%s=%s&", key, value)`. -/
def qstep (acc : String) (kv : String × String) : String :=
  acc ++ kv.1 ++ "=" ++ kv.2 ++ "&"

/-- Query string built by GetTTSWithURLParams, api.go lines 250-258.
The argument list is the sequence in which the Go `range` loop happens to
enumerate the map's entries (Go map iteration order is unspecified).
`query[:len(query)-1]` slices off the final byte; the final character is
always the one-byte `&`, so dropping the last character is the same
operation. -/
def buildQuery (params : List (String × String)) : String :=
  let query := params.foldl qstep "?"
  if query.length > 1 then String.mk query.data.dropLast else query

/-- The GET request GetTTSWithURLParams builds: api.go lines 247-263.
No body and no headers are set on it. -/
def getTTSRequestFor (c : Client) (params : List (String × String)) : HttpRequest :=
  { method := "GET", url := c.BaseURL ++ "/tts" ++ buildQuery params,
    body := none, headers := [] }

/-- GetTTSWithURLParams, api.go lines 245-285. -/
def Client.GetTTSWithURLParams (c : Client) (env : HttpEnv)
    (params : List (String × String)) : TTSResponse × Option String :=
  match env.newRequestErr with
  | some e => ({ Error := some ("创建请求失败: " ++ e) }, none)
  | none =>
    match env.perform (getTTSRequestFor c params) with
    | .error e => ({ Error := some ("请求失败: " ++ e) }, none)
    | .ok resp =>
      match resp.readErr with
      | some e => ({ Error := some ("读取响应体失败: " ++ e) }, none)
      | none => ({ StatusCode := resp.statusCode, AudioData := resp.bodyBytes }, none)

/-- The GET request ControlWithGet builds: api.go lines 290-293. -/
def controlGetRequestFor (c : Client) (command : String) : HttpRequest :=
  { method := "GET", url := c.BaseURL ++ "/control?command=" ++ command,
    body := none, headers := [] }

/-- ControlWithGet, api.go lines 288-312. -/
def Client.ControlWithGet (c : Client) (env : HttpEnv) (command : String) :
    Option String :=
  match env.newRequestErr with
  | some e => some ("创建控制请求失败: " ++ e)
  | none =>
    match env.perform (controlGetRequestFor c command) with
    | .error e => some ("控制请求失败: " ++ e)
    | .ok resp =>
      if resp.statusCode ≠ 200 ∧ resp.statusCode ≠ 204 then
        some ("控制请求失败，状态码 " ++ toString resp.statusCode ++ ": " ++
          resp.bodyBytes)
      else none

/-- The GET request SetGPTWeightsWithGet builds: api.go lines 317-320. -/
def gptWeightsGetRequestFor (c : Client) (weightsPath : String) : HttpRequest :=
  { method := "GET", url := c.BaseURL ++ "/set_gpt_weights?weights_path=" ++ weightsPath,
    body := none, headers := [] }

/-- SetGPTWeightsWithGet, api.go lines 315-339. -/
def Client.SetGPTWeightsWithGet (c : Client) (env : HttpEnv)
    (weightsPath : String) : Option String :=
  match env.newRequestErr with
  | some e => some ("创建权重请求失败: " ++ e)
  | none =>
    match env.perform (gptWeightsGetRequestFor c weightsPath) with
    | .error e => some ("设置GPT权重请求失败: " ++ e)
    | .ok resp =>
      if resp.statusCode ≠ 200 then
        some ("设置GPT权重失败，状态码 " ++ toString resp.statusCode ++ ": " ++
          resp.bodyBytes)
      else none

/-- The GET request SetSoVITSWeightsWithGet builds: api.go lines 344-347. -/
def sovitsWeightsGetRequestFor (c : Client) (weightsPath : String) : HttpRequest :=
  { method := "GET",
    url := c.BaseURL ++ "/set_sovits_weights?weights_path=" ++ weightsPath,
    body := none, headers := [] }

/-- SetSoVITSWeightsWithGet, api.go lines 342-366. -/
def Client.SetSoVITSWeightsWithGet (c : Client) (env : HttpEnv)
    (weightsPath : String) : Option String :=
  match env.newRequestErr with
  | some e => some ("创建权重请求失败: " ++ e)
  | none =>
    match env.perform (sovitsWeightsGetRequestFor c weightsPath) with
    | .error e => some ("设置SoVITS权重请求失败: " ++ e)
    | .ok resp =>
      if resp.statusCode ≠ 200 then
        some ("设置SoVITS权重失败，状态码 " ++ toString resp.statusCode ++ ": " ++
          resp.bodyBytes)
      else none

/-- Modelled from the spec: the remote server is outside this repository;
spec section 6 gives its wire contract.  A server reading a request URL
takes the part after the first `?` as the query string.  Characters up to
and including the first `?` are dropped. -/
def dropToQuery : List Char → List Char
  | [] => []
  | c :: cs => if c = '?' then cs else dropToQuery cs

/-- Split a character list on a separator character; `acc` holds the
current segment reversed. -/
def splitOnCharAux (sep : Char) : List Char → List Char → List (List Char)
  | [], acc => [acc.reverse]
  | c :: cs, acc =>
    if c = sep then acc.reverse :: splitOnCharAux sep cs []
    else splitOnCharAux sep cs (c :: acc)

/-- Cut a query segment at the first `=`: key part and value part. -/
def cutEq : List Char → List Char × List Char
  | [] => ([], [])
  | c :: cs =>
    if c = '=' then ([], cs)
    else
      let p := cutEq cs
      (c :: p.1, p.2)

/-- Value of a hexadecimal digit character, if it is one. -/
def hexVal (c : Char) : Option Nat :=
  if '0' ≤ c ∧ c ≤ '9' then some (c.toNat - 48)
  else if 'A' ≤ c ∧ c ≤ 'F' then some (c.toNat - 55)
  else if 'a' ≤ c ∧ c ≤ 'f' then some (c.toNat - 87)
  else none

/-- Modelled from the spec: percent-decoding as a standard server applies
it to each query key and value; a `%` not followed by two hex digits is
kept as-is. -/
def percentDecodeChars : List Char → List Char
  | [] => []
  | '%' :: h :: l :: rest =>
    match hexVal h, hexVal l with
    | some a, some b => Char.ofNat (16 * a + b) :: percentDecodeChars rest
    | _, _ => '%' :: percentDecodeChars (h :: l :: rest)
  | c :: rest => c :: percentDecodeChars rest

/-- One `key=value` query segment, percent-decoded on both sides. -/
def parsePairChars (seg : List Char) : String × String :=
  let p := cutEq seg
  (String.mk (percentDecodeChars p.1), String.mk (percentDecodeChars p.2))

/-- Modelled from the spec: the command string a server observes when the
control endpoint is hit via GET — the first `command` value of the
request URL's query string. -/
def serverObservedGET (url : String) : Option String :=
  ((splitOnCharAux '&' (dropToQuery url.data) []).map parsePairChars).lookup
    "command"

/-- Modelled from the spec: the command string a server observes when the
control endpoint is hit via POST — the `command` field of the JSON body. -/
def serverObservedPOST (r : HttpRequest) : Option String :=
  match r.body with
  | some (Json.obj fields) =>
    match fields.lookup "command" with
    | some (Json.str s) => some s
    | _ => none
  | _ => none

/-- Modelled from the spec: a query string transmits its values safely
only if every character is ASCII; RFC 3986 query strings are ASCII, so
non-ASCII text must be percent-encoded to survive uncorrupted. -/
def asciiOnly (s : String) : Bool :=
  s.data.all (fun c => decide (c.toNat < 128))

/-- The `key=value` pairs of a parameter list joined by `&`, as
characters; the reference form against which `buildQuery` is compared. -/
def joinPairs : List (String × String) → List Char
  | [] => []
  | [kv] => kv.1.data ++ '=' :: kv.2.data
  | kv :: rest => kv.1.data ++ '=' :: (kv.2.data ++ '&' :: joinPairs rest)

/-- Raw concatenation of `key=value&` chunks, the loop part of
`buildQuery` before the trailing separator is sliced off. -/
def flatPairs : List (String × String) → List Char
  | [] => []
  | kv :: rest => kv.1.data ++ '=' :: (kv.2.data ++ '&' :: flatPairs rest)

/-- Modelled from the spec: the query string the claim predicts — the
pairs listed in the mapping's insertion order, joined by `&` after a
leading `?`. -/
def insertionOrderQuery (inserted : List (String × String)) : String :=
  String.mk ('?' :: joinPairs inserted)

lemma status_check_200_204 (sc : Nat) (msg : String) :
    ((if sc ≠ 200 ∧ sc ≠ 204 then some msg else none) = none ↔
      (sc = 200 ∨ sc = 204)) ∧
    (¬(sc = 200 ∨ sc = 204) →
      (if sc ≠ 200 ∧ sc ≠ 204 then some msg else none) = some msg) := by
  by_cases h : sc = 200 ∨ sc = 204
  · refine ⟨?_, fun hn => absurd h hn⟩
    rw [if_neg (by tauto)]
    simp [h]
  · refine ⟨?_, fun _ => by rw [if_pos (by tauto)]⟩
    rw [if_pos (by tauto)]
    simp [h]

lemma status_check_200 (sc : Nat) (msg : String) :
    ((if sc ≠ 200 then some msg else none) = none ↔ sc = 200) ∧
    (sc ≠ 200 → (if sc ≠ 200 then some msg else none) = some msg) := by
  by_cases h : sc = 200
  · refine ⟨?_, fun hn => absurd h hn⟩
    rw [if_neg (by tauto)]
    simp [h]
  · refine ⟨?_, fun _ => by rw [if_pos h]⟩
    rw [if_pos h]
    simp [h]

/-- C1: TTS serializes the request, POSTs it to BaseURL followed by /tts
with the JSON body, and for every response the server sends returns a
TTSResponse carrying exactly the received status code and body bytes,
with no error, whatever the status code is. -/
theorem tts_post_returns_status_and_body_verbatim
    (c : Client) (env : HttpEnv) (req : TTSRequest) (j : Json)
    (status : Nat) (body : String)
    (hser : marshalTTSRequest req = Except.ok j)
    (hbuild : env.newRequestErr = none)
    (hdo : env.perform (ttsRequestFor c j) = Except.ok ⟨status, body, none⟩) :
    c.TTS env req =
      ({ StatusCode := status, AudioData := body, Error := none }, none) := by
  unfold Client.TTS
  simp only [hser, hbuild, hdo]

/-- Witness for C1 at the spec's example: text "hello", textLang "en",
refAudioPath "ref.wav", promptLang "en", a server answering 200 with the
bytes 0x52 0x49 0x46 0x46 ("RIFF"). -/
theorem tts_post_returns_status_and_body_verbatim_witness :
    (Client.mk "http://127.0.0.1:9880").TTS
        ⟨none, fun _ => Except.ok ⟨200, "RIFF", none⟩⟩
        { Text := "hello", TextLang := "en", RefAudioPath := "ref.wav",
          PromptLang := "en" } =
      ({ StatusCode := 200, AudioData := "RIFF", Error := none }, none) :=
  tts_post_returns_status_and_body_verbatim _ _ _ _ 200 "RIFF" rfl rfl rfl

/-- C3: the request TTSSimple constructs always carries split method
cut5, batch size 1, media type wav, streaming mode false, and the five
inputs in their fields, and TTSSimple sends exactly that request through
TTS. -/
theorem ttsSimple_fixed_defaults (c : Client) (env : HttpEnv)
    (text textLang refAudioPath promptLang promptText : String) :
    (ttsSimpleRequest text textLang refAudioPath promptLang promptText).TextSplitMethod = "cut5" ∧
    (ttsSimpleRequest text textLang refAudioPath promptLang promptText).BatchSize = 1 ∧
    (ttsSimpleRequest text textLang refAudioPath promptLang promptText).MediaType = "wav" ∧
    (ttsSimpleRequest text textLang refAudioPath promptLang promptText).StreamingMode = false ∧
    (ttsSimpleRequest text textLang refAudioPath promptLang promptText).Text = text ∧
    (ttsSimpleRequest text textLang refAudioPath promptLang promptText).TextLang = textLang ∧
    (ttsSimpleRequest text textLang refAudioPath promptLang promptText).RefAudioPath = refAudioPath ∧
    (ttsSimpleRequest text textLang refAudioPath promptLang promptText).PromptLang = promptLang ∧
    (ttsSimpleRequest text textLang refAudioPath promptLang promptText).PromptText = promptText ∧
    c.TTSSimple env text textLang refAudioPath promptLang promptText =
      c.TTS env (ttsSimpleRequest text textLang refAudioPath promptLang promptText) :=
  ⟨rfl, rfl, rfl, rfl, rfl, rfl, rfl, rfl, rfl, rfl⟩

/-- C4: both control variants succeed exactly on HTTP 200 or 204, and on
any other status fail with a message carrying the status code and the
response body text. -/
theorem control_success_iff_status_200_or_204
    (c : Client) (env : HttpEnv) (command : String) (resp resp2 : HttpResp)
    (hbuild : env.newRequestErr = none)
    (hpost : env.perform (controlRequestFor c command) = Except.ok resp)
    (hget : env.perform (controlGetRequestFor c command) = Except.ok resp2) :
    (c.Control env command = none ↔
      (resp.statusCode = 200 ∨ resp.statusCode = 204)) ∧
    (¬(resp.statusCode = 200 ∨ resp.statusCode = 204) →
      c.Control env command =
        some ("控制请求失败，状态码 " ++ toString resp.statusCode ++ ": " ++
          resp.bodyBytes)) ∧
    (c.ControlWithGet env command = none ↔
      (resp2.statusCode = 200 ∨ resp2.statusCode = 204)) ∧
    (¬(resp2.statusCode = 200 ∨ resp2.statusCode = 204) →
      c.ControlWithGet env command =
        some ("控制请求失败，状态码 " ++ toString resp2.statusCode ++ ": " ++
          resp2.bodyBytes)) := by
  unfold Client.Control Client.ControlWithGet
  simp only [hbuild, hpost, hget]
  exact ⟨(status_check_200_204 _ _).1, (status_check_200_204 _ _).2,
    (status_check_200_204 _ _).1, (status_check_200_204 _ _).2⟩

/-- Witness for C4: a server answering 500 with body "oops" makes both
control variants fail with the status code and the body in the message. -/
theorem control_success_iff_status_200_or_204_witness :
    (Client.mk "http://127.0.0.1:9880").Control
        ⟨none, fun _ => Except.ok ⟨500, "oops", none⟩⟩ "restart" =
      some "控制请求失败，状态码 500: oops" ∧
    (Client.mk "http://127.0.0.1:9880").ControlWithGet
        ⟨none, fun _ => Except.ok ⟨500, "oops", none⟩⟩ "restart" =
      some "控制请求失败，状态码 500: oops" :=
  ⟨(control_success_iff_status_200_or_204 _ _ "restart" ⟨500, "oops", none⟩
      ⟨500, "oops", none⟩ rfl rfl rfl).2.1 (by decide),
   (control_success_iff_status_200_or_204 _ _ "restart" ⟨500, "oops", none⟩
      ⟨500, "oops", none⟩ rfl rfl rfl).2.2.2 (by decide)⟩

/-- C5: all four weight-update operations succeed exactly on HTTP 200 and
otherwise fail with a message carrying the status code and the response
body text. -/
theorem set_weights_success_iff_status_200
    (c : Client) (env : HttpEnv) (weightsPath : String)
    (r1 r2 r3 r4 : HttpResp)
    (hbuild : env.newRequestErr = none)
    (h1 : env.perform (gptWeightsRequestFor c weightsPath) = Except.ok r1)
    (h2 : env.perform (sovitsWeightsRequestFor c weightsPath) = Except.ok r2)
    (h3 : env.perform (gptWeightsGetRequestFor c weightsPath) = Except.ok r3)
    (h4 : env.perform (sovitsWeightsGetRequestFor c weightsPath) = Except.ok r4) :
    (c.SetGPTWeights env weightsPath = none ↔ r1.statusCode = 200) ∧
    (r1.statusCode ≠ 200 → c.SetGPTWeights env weightsPath =
      some ("设置GPT权重失败，状态码 " ++ toString r1.statusCode ++ ": " ++
        r1.bodyBytes)) ∧
    (c.SetSoVITSWeights env weightsPath = none ↔ r2.statusCode = 200) ∧
    (r2.statusCode ≠ 200 → c.SetSoVITSWeights env weightsPath =
      some ("设置SoVITS权重失败，状态码 " ++ toString r2.statusCode ++ ": " ++
        r2.bodyBytes)) ∧
    (c.SetGPTWeightsWithGet env weightsPath = none ↔ r3.statusCode = 200) ∧
    (r3.statusCode ≠ 200 → c.SetGPTWeightsWithGet env weightsPath =
      some ("设置GPT权重失败，状态码 " ++ toString r3.statusCode ++ ": " ++
        r3.bodyBytes)) ∧
    (c.SetSoVITSWeightsWithGet env weightsPath = none ↔ r4.statusCode = 200) ∧
    (r4.statusCode ≠ 200 → c.SetSoVITSWeightsWithGet env weightsPath =
      some ("设置SoVITS权重失败，状态码 " ++ toString r4.statusCode ++ ": " ++
        r4.bodyBytes)) := by
  unfold Client.SetGPTWeights Client.SetSoVITSWeights
    Client.SetGPTWeightsWithGet Client.SetSoVITSWeightsWithGet
  simp only [hbuild, h1, h2, h3, h4]
  exact ⟨(status_check_200 _ _).1, (status_check_200 _ _).2,
    (status_check_200 _ _).1, (status_check_200 _ _).2,
    (status_check_200 _ _).1, (status_check_200 _ _).2,
    (status_check_200 _ _).1, (status_check_200 _ _).2⟩

/-- Witness for C5 at the spec's example: a server answering 400 with
body containing "file not found" makes SetGPTWeights fail with status 400
and that message. -/
theorem set_weights_success_iff_status_200_witness :
    (Client.mk "http://127.0.0.1:9880").SetGPTWeights
        ⟨none, fun _ =>
          Except.ok ⟨400, "\x7b\"error\":\"file not found\"\x7d", none⟩⟩
        "GPT_SoVITS/pretrained_models/s1.ckpt" =
      some "设置GPT权重失败，状态码 400: \x7b\"error\":\"file not found\"\x7d" :=
  (set_weights_success_iff_status_200 _ _ "GPT_SoVITS/pretrained_models/s1.ckpt"
      ⟨400, "\x7b\"error\":\"file not found\"\x7d", none⟩
      ⟨400, "\x7b\"error\":\"file not found\"\x7d", none⟩
      ⟨400, "\x7b\"error\":\"file not found\"\x7d", none⟩
      ⟨400, "\x7b\"error\":\"file not found\"\x7d", none⟩
      rfl rfl rfl rfl rfl).2.1 (by decide)

lemma tts_error_shape (c : Client) (env : HttpEnv) (req : TTSRequest) :
    (c.TTS env req).2 = none ∧
      ((c.TTS env req).1.Error = none ∨
        ((c.TTS env req).1.StatusCode = 0 ∧ (c.TTS env req).1.AudioData = "")) := by
  unfold Client.TTS
  cases hm : marshalTTSRequest req with
  | error e => simp
  | ok j =>
    cases hn : env.newRequestErr with
    | some e => simp
    | none =>
      cases hp : env.perform (ttsRequestFor c j) with
      | error e => simp [hp]
      | ok resp =>
        obtain ⟨st, bd, re⟩ := resp
        cases re <;> simp [hp]

lemma getTTS_error_shape (c : Client) (env : HttpEnv)
    (params : List (String × String)) :
    (c.GetTTSWithURLParams env params).2 = none ∧
      ((c.GetTTSWithURLParams env params).1.Error = none ∨
        ((c.GetTTSWithURLParams env params).1.StatusCode = 0 ∧
          (c.GetTTSWithURLParams env params).1.AudioData = "")) := by
  unfold Client.GetTTSWithURLParams
  cases hn : env.newRequestErr with
  | some e => simp
  | none =>
    cases hp : env.perform (getTTSRequestFor c params) with
    | error e => simp [hp]
    | ok resp =>
      obtain ⟨st, bd, re⟩ := resp
      cases re <;> simp [hp]

/-- C10: the three operations returning a TTSResponse never return a
non-nil Go error; every failure goes into the Error field, and whenever
Error is set the response keeps status code 0 and an empty body. -/
theorem tts_operations_return_nil_error (c : Client) (env : HttpEnv)
    (req : TTSRequest)
    (text textLang refAudioPath promptLang promptText : String)
    (params : List (String × String)) :
    ((c.TTS env req).2 = none ∧
      ((c.TTS env req).1.Error = none ∨
        ((c.TTS env req).1.StatusCode = 0 ∧ (c.TTS env req).1.AudioData = ""))) ∧
    ((c.TTSSimple env text textLang refAudioPath promptLang promptText).2 = none ∧
      ((c.TTSSimple env text textLang refAudioPath promptLang promptText).1.Error = none ∨
        ((c.TTSSimple env text textLang refAudioPath promptLang promptText).1.StatusCode = 0 ∧
          (c.TTSSimple env text textLang refAudioPath promptLang promptText).1.AudioData = ""))) ∧
    ((c.GetTTSWithURLParams env params).2 = none ∧
      ((c.GetTTSWithURLParams env params).1.Error = none ∨
        ((c.GetTTSWithURLParams env params).1.StatusCode = 0 ∧
          (c.GetTTSWithURLParams env params).1.AudioData = ""))) :=
  ⟨tts_error_shape c env req,
   tts_error_shape c env
     (ttsSimpleRequest text textLang refAudioPath promptLang promptText),
   getTTS_error_shape c env params⟩

/-- C9: every POST-variant request carries exactly the header
Content-Type: application/json, the GET-variant requests carry no headers
at all, and no request of any operation carries an Authorization header. -/
theorem post_requests_content_type_json_no_auth (c : Client) (j : Json)
    (command weightsPath : String) (params : List (String × String)) :
    (ttsRequestFor c j).headers = [("Content-Type", "application/json")] ∧
    (controlRequestFor c command).headers = [("Content-Type", "application/json")] ∧
    (gptWeightsRequestFor c weightsPath).headers = [("Content-Type", "application/json")] ∧
    (sovitsWeightsRequestFor c weightsPath).headers = [("Content-Type", "application/json")] ∧
    (getTTSRequestFor c params).headers = [] ∧
    (controlGetRequestFor c command).headers = [] ∧
    (gptWeightsGetRequestFor c weightsPath).headers = [] ∧
    (sovitsWeightsGetRequestFor c weightsPath).headers = [] ∧
    ((ttsRequestFor c j).headers.all fun kv => kv.1 != "Authorization") = true ∧
    ((controlRequestFor c command).headers.all fun kv => kv.1 != "Authorization") = true ∧
    ((gptWeightsRequestFor c weightsPath).headers.all fun kv => kv.1 != "Authorization") = true ∧
    ((sovitsWeightsRequestFor c weightsPath).headers.all fun kv => kv.1 != "Authorization") = true ∧
    ((getTTSRequestFor c params).headers.all fun kv => kv.1 != "Authorization") = true ∧
    ((controlGetRequestFor c command).headers.all fun kv => kv.1 != "Authorization") = true ∧
    ((gptWeightsGetRequestFor c weightsPath).headers.all fun kv => kv.1 != "Authorization") = true ∧
    ((sovitsWeightsGetRequestFor c weightsPath).headers.all fun kv => kv.1 != "Authorization") = true :=
  ⟨rfl, rfl, rfl, rfl, rfl, rfl, rfl, rfl,
   rfl, rfl, rfl, rfl, rfl, rfl, rfl, rfl⟩

/-- C2: divergence evidence — the query GetTTSWithURLParams builds for a
Chinese-text parameter carries the non-ASCII characters raw, with no
percent-encoding, so the request URL is not safely transmitted (RFC 3986
query strings are ASCII). -/
theorem getTTS_query_not_percent_encoded :
    buildQuery [("text", "你好")] = "?text=你好" ∧
    (getTTSRequestFor (Client.mk "http://127.0.0.1:9880") [("text", "你好")]).url =
      "http://127.0.0.1:9880/tts?text=你好" ∧
    asciiOnly (getTTSRequestFor (Client.mk "http://127.0.0.1:9880")
      [("text", "你好")]).url = false := by
  refine ⟨?_, ?_, ?_⟩ <;> decide

lemma foldl_qstep_data (ps : List (String × String)) :
    ∀ acc : String, (ps.foldl qstep acc).data = acc.data ++ flatPairs ps := by
  induction ps with
  | nil =>
    intro acc
    simp [flatPairs]
  | cons kv rest ih =>
    intro acc
    have heq : ("=" : String).data = ['='] := rfl
    have hamp : ("&" : String).data = ['&'] := rfl
    rw [List.foldl_cons, ih]
    simp [qstep, flatPairs, String.data_append, heq, hamp, List.append_assoc]

lemma flatPairs_eq_join (ps : List (String × String)) (h : ps ≠ []) :
    flatPairs ps = joinPairs ps ++ ['&'] := by
  induction ps with
  | nil => exact absurd rfl h
  | cons kv rest ih =>
    cases rest with
    | nil => simp [flatPairs, joinPairs]
    | cons kv2 rest2 =>
      rw [show flatPairs (kv :: kv2 :: rest2) =
          kv.1.data ++ '=' :: (kv.2.data ++ '&' :: flatPairs (kv2 :: rest2)) from rfl,
        ih (by simp),
        show joinPairs (kv :: kv2 :: rest2) =
          kv.1.data ++ '=' :: (kv.2.data ++ '&' :: joinPairs (kv2 :: rest2)) from rfl]
      simp [List.append_assoc]

/-- C7 (amended): the query string lists the key=value pairs in the order
the map's entries are enumerated by the range loop (unspecified for Go
maps, not insertion order), joined by the ampersand after a leading
question mark, and the GET URL appends that query to BaseURL/tts. -/
theorem query_lists_pairs_in_enumeration_order
    (c : Client) (ps : List (String × String)) :
    (buildQuery ps).data = '?' :: joinPairs ps ∧
    (getTTSRequestFor c ps).url = c.BaseURL ++ "/tts" ++ buildQuery ps := by
  refine ⟨?_, rfl⟩
  have hbq : buildQuery ps =
      if (ps.foldl qstep "?").length > 1 then
        String.mk (ps.foldl qstep "?").data.dropLast
      else ps.foldl qstep "?" := rfl
  rw [hbq]
  cases ps with
  | nil => decide
  | cons kv rest =>
    have hdata : ((kv :: rest).foldl qstep "?").data =
        '?' :: flatPairs (kv :: rest) := by
      rw [foldl_qstep_data]
      rfl
    have hlen : ((kv :: rest).foldl qstep "?").length > 1 := by
      show ((kv :: rest).foldl qstep "?").data.length > 1
      rw [hdata]
      simp [flatPairs, List.length_append]
    rw [if_pos hlen]
    show ((kv :: rest).foldl qstep "?").data.dropLast = '?' :: joinPairs (kv :: rest)
    rw [hdata, flatPairs_eq_join _ (by simp), ← List.cons_append,
      List.dropLast_concat]

/-- C7 (counterexample): the mapping inserted as a=1 then b=2 may be
enumerated by the Go range loop as b,a — a permutation of its entries —
and then the built query is not the insertion-order listing. -/
theorem query_order_insertion_counterexample :
    List.Perm [("b", "2"), ("a", "1")] [("a", "1"), ("b", "2")] ∧
    buildQuery [("b", "2"), ("a", "1")] = "?b=2&a=1" ∧
    buildQuery [("b", "2"), ("a", "1")] ≠
      insertionOrderQuery [("a", "1"), ("b", "2")] := by
  refine ⟨?_, ?_, ?_⟩ <;> decide

lemma dropToQuery_append (l r : List Char) (h : ∀ ch ∈ l, ch ≠ '?') :
    dropToQuery (l ++ r) = dropToQuery r := by
  induction l with
  | nil => rfl
  | cons c cs ih =>
    have hc : c ≠ '?' := h c (by simp)
    rw [List.cons_append]
    simp only [dropToQuery, if_neg hc]
    exact ih (fun ch hm => h ch (by simp [hm]))

/-- C6: a command restart or exit sent through the POST body and through
the GET query string is observed identically by the server, as the very
command string. -/
theorem control_post_get_same_observed_command (c : Client) (command : String)
    (hcmd : command = "restart" ∨ command = "exit")
    (hbase : ∀ ch ∈ c.BaseURL.data, ch ≠ '?') :
    serverObservedPOST (controlRequestFor c command) = some command ∧
    serverObservedGET (controlGetRequestFor c command).url = some command := by
  constructor
  · rfl
  · rcases hcmd with h | h
    · subst h
      show serverObservedGET (c.BaseURL ++ "/control?command=" ++ "restart") =
        some "restart"
      unfold serverObservedGET
      rw [String.data_append, String.data_append, List.append_assoc,
        dropToQuery_append _ _ hbase]
      decide
    · subst h
      show serverObservedGET (c.BaseURL ++ "/control?command=" ++ "exit") =
        some "exit"
      unfold serverObservedGET
      rw [String.data_append, String.data_append, List.append_assoc,
        dropToQuery_append _ _ hbase]
      decide

/-- Witness for C6 at command restart against a concrete base URL. -/
theorem control_post_get_same_observed_command_witness :
    serverObservedPOST
        (controlRequestFor (Client.mk "http://127.0.0.1:9880") "restart") =
      some "restart" ∧
    serverObservedGET
        (controlGetRequestFor (Client.mk "http://127.0.0.1:9880") "restart").url =
      some "restart" :=
  control_post_get_same_observed_command (Client.mk "http://127.0.0.1:9880")
    "restart" (Or.inl rfl) (by decide)

lemma GoFloat.isFinite_iff (g : GoFloat) :
    g.isFinite = true ↔ ∃ q, g = GoFloat.finite q := by
  cases g <;> simp [GoFloat.isFinite]

lemma decodeStrs_map_str (xs : List String) :
    decodeStrs (xs.map Json.str) = Except.ok xs := by
  induction xs with
  | nil => rfl
  | cons x rest ih => simp [decodeStrs, ih, Except.map]

/-- C8: for every TTSRequest whose float64 fields are finite — exactly
the requests json.Marshal accepts — marshalling to JSON and
unmarshalling that JSON yields the original request, and the JSON object
keys are the snake_case names of the data model, in field order. -/
theorem tts_request_json_roundtrip (r : TTSRequest)
    (hfin : r.floatsFinite = true) :
    ∃ j, marshalTTSRequest r = Except.ok j ∧
      unmarshalTTSRequest j = Except.ok r ∧
      j.topKeys = ["text", "text_lang", "ref_audio_path",
        "aux_ref_audio_paths", "prompt_text", "prompt_lang", "top_k",
        "top_p", "temperature", "text_split_method", "batch_size",
        "batch_threshold", "split_bucket", "speed_factor",
        "fragment_interval", "seed", "media_type", "streaming_mode",
        "parallel_infer", "repetition_penalty", "sample_steps",
        "super_sampling"] := by
  obtain ⟨t, tl, rap, aux, pt, pl, tk, tp, tmp, tsm, bs, bt, sb, sf, fi,
    sd, mt, sm, par, rp, ss, sup⟩ := r
  simp only [TTSRequest.floatsFinite, Bool.and_eq_true,
    GoFloat.isFinite_iff] at hfin
  obtain ⟨⟨⟨⟨⟨⟨q1, hq1⟩, q2, hq2⟩, q3, hq3⟩, q4, hq4⟩, q5, hq5⟩, q6, hq6⟩ := hfin
  subst hq1 hq2 hq3 hq4 hq5 hq6
  refine ⟨_, rfl, ?_, rfl⟩
  simp [unmarshalTTSRequest, applyFields, setField, decodeStrs_map_str,
    Rat.den_intCast, Rat.num_intCast, Except.map]

/-- Witness for C8 at a concrete request with the defaults of the
WebAPI documentation. -/
theorem tts_request_json_roundtrip_witness :
    ∃ j,
      marshalTTSRequest
          { Text := "hello", TextLang := "en", RefAudioPath := "ref.wav",
            PromptLang := "en", PromptText := "hi",
            AuxRefAudioPaths := ["a.wav", "b.wav"], TopK := 5,
            TopP := GoFloat.finite 1, Temperature := GoFloat.finite 1,
            TextSplitMethod := "cut5", BatchSize := 1,
            BatchThreshold := GoFloat.finite (3 / 4), SplitBucket := true,
            SpeedFactor := GoFloat.finite 1,
            FragmentInterval := GoFloat.finite (3 / 10), Seed := -1,
            MediaType := "wav", StreamingMode := false, ParallelInfer := true,
            RepetitionPenalty := GoFloat.finite (27 / 20), SampleSteps := 32,
            SuperSampling := false } = Except.ok j ∧
      unmarshalTTSRequest j = Except.ok
          { Text := "hello", TextLang := "en", RefAudioPath := "ref.wav",
            PromptLang := "en", PromptText := "hi",
            AuxRefAudioPaths := ["a.wav", "b.wav"], TopK := 5,
            TopP := GoFloat.finite 1, Temperature := GoFloat.finite 1,
            TextSplitMethod := "cut5", BatchSize := 1,
            BatchThreshold := GoFloat.finite (3 / 4), SplitBucket := true,
            SpeedFactor := GoFloat.finite 1,
            FragmentInterval := GoFloat.finite (3 / 10), Seed := -1,
            MediaType := "wav", StreamingMode := false, ParallelInfer := true,
            RepetitionPenalty := GoFloat.finite (27 / 20), SampleSteps := 32,
            SuperSampling := false } ∧
      j.topKeys = ["text", "text_lang", "ref_audio_path",
        "aux_ref_audio_paths", "prompt_text", "prompt_lang", "top_k",
        "top_p", "temperature", "text_split_method", "batch_size",
        "batch_threshold", "split_bucket", "speed_factor",
        "fragment_interval", "seed", "media_type", "streaming_mode",
        "parallel_infer", "repetition_penalty", "sample_steps",
        "super_sampling"] :=
  tts_request_json_roundtrip _ (by decide)
